import Mathlib

/-!
Shallow embedding of the two scripts of `week5-python-assignment`:
`polymorphism.py` (a vehicle hierarchy: Car, Plane, Boat, Bicycle, Train)
and `smartphone.py` (an Electronics base class with Smartphone and Laptop).

Modelling conventions:
* Python integers are `Int` (unbounded, signed); Python `//` on a positive
  literal divisor is `Int` division `/` (`Int.ediv`, floor division).
* Methods that mutate `self` and return a value become functions
  `State → args → State × Ret`; methods returning `None` drop the pair.
* `print` calls carry no state, so they are omitted; where a claim needs to
  distinguish which message branch ran (install_app), the function returns a
  result tag with one constructor per branch of the source.
* `datetime.now()` and `random` values are taken as explicit parameters
  (`timestamp`, `serial`), making the functions pure.
* The process-wide counter `Electronics.total_devices` is threaded explicitly:
  each constructor takes the current counter and returns the new one.
-/

/-! ## Vehicle hierarchy (`polymorphism.py`) -/

/-- Common fields of `Vehicle.__init__` (`polymorphism.py`, lines 23-31). -/
structure VehicleBase where
  name : String
  max_speed : Int
  fuel_type : String
  capacity : Int
  current_speed : Int
  is_moving : Bool
  fuel_level : Int
  distance_traveled : Int
deriving DecidableEq, Repr

/-- `Vehicle.__init__(name, max_speed, fuel_type, capacity)`: speed 0, not
moving, fuel 100, distance 0. -/
def VehicleBase.init (name : String) (max_speed : Int) (fuel_type : String)
    (capacity : Int) : VehicleBase :=
  { name := name, max_speed := max_speed, fuel_type := fuel_type,
    capacity := capacity, current_speed := 0, is_moving := false,
    fuel_level := 100, distance_traveled := 0 }

/-- `Vehicle.accelerate(speed_increase)` (lines 48-55): when moving, clamp the
new speed at `max_speed`; otherwise only a message is printed. -/
def VehicleBase.accelerate (v : VehicleBase) (speed_increase : Int) : VehicleBase :=
  if v.is_moving then
    { v with current_speed := min v.max_speed (v.current_speed + speed_increase) }
  else
    v

/-- The documented invariant on the shared vehicle state: speed never exceeds
`max_speed`, and a stopped vehicle has speed 0. -/
def VehicleInv (v : VehicleBase) : Prop :=
  v.current_speed ≤ v.max_speed ∧ (v.is_moving = false → v.current_speed = 0)

instance (v : VehicleBase) : Decidable (VehicleInv v) := by
  unfold VehicleInv; infer_instance

/-- `Car` adds `gear` and `doors` (lines 80-83). -/
structure Car where
  base : VehicleBase
  gear : Int
  doors : Int
deriving DecidableEq, Repr

/-- `Car.__init__(name, max_speed=180, capacity=5)`: fuel type "Gasoline",
gear 1, 4 doors. -/
def Car.init (name : String) (max_speed : Int := 180) (capacity : Int := 5) : Car :=
  { base := VehicleBase.init name max_speed "Gasoline" capacity, gear := 1, doors := 4 }

/-- `Car.move` (lines 85-93): from stopped, start moving at 30 km/h; when
already moving only a message is printed. -/
def Car.move (c : Car) : Car :=
  if !c.base.is_moving then
    { c with base := { c.base with is_moving := true, current_speed := 30 } }
  else
    c

/-- `Car.stop` (lines 95-104): from moving, speed to 0 and stop; otherwise a
message only. -/
def Car.stop (c : Car) : Car :=
  if c.base.is_moving then
    { c with base := { c.base with current_speed := 0, is_moving := false } }
  else
    c

/-- `Plane` adds `altitude` and `is_airborne` (lines 122-125). -/
structure Plane where
  base : VehicleBase
  altitude : Int
  is_airborne : Bool
deriving DecidableEq, Repr

/-- `Plane.__init__(name, max_speed=900, capacity=200)`: fuel "Jet Fuel",
altitude 0, not airborne. -/
def Plane.init (name : String) (max_speed : Int := 900) (capacity : Int := 200) : Plane :=
  { base := VehicleBase.init name max_speed "Jet Fuel" capacity,
    altitude := 0, is_airborne := false }

/-- `Plane.move` (lines 127-140): from stopped, take off at 250 km/h and
altitude 1000. -/
def Plane.move (p : Plane) : Plane :=
  if !p.base.is_moving then
    { p with base := { p.base with is_moving := true, current_speed := 250 },
             is_airborne := true, altitude := 1000 }
  else
    p

/-- `Plane.stop` (lines 142-154): from moving, land: altitude 0, speed 0, not
airborne. -/
def Plane.stop (p : Plane) : Plane :=
  if p.base.is_moving then
    { p with base := { p.base with current_speed := 0, is_moving := false },
             altitude := 0, is_airborne := false }
  else
    p

/-- `Boat` adds `anchor_down` (lines 172-174). -/
structure Boat where
  base : VehicleBase
  anchor_down : Bool
deriving DecidableEq, Repr

/-- `Boat.__init__(name, max_speed=60, capacity=50)`: fuel "Diesel", anchor
down. -/
def Boat.init (name : String) (max_speed : Int := 60) (capacity : Int := 50) : Boat :=
  { base := VehicleBase.init name max_speed "Diesel" capacity, anchor_down := true }

/-- `Boat.move` (lines 176-189): from stopped, raise the anchor (when down) and
sail at 25 km/h; in both anchor cases the anchor ends up raised. -/
def Boat.move (b : Boat) : Boat :=
  if !b.base.is_moving then
    { b with base := { b.base with is_moving := true, current_speed := 25 },
             anchor_down := false }
  else
    b

/-- `Boat.stop` (lines 191-201): from moving, speed 0, drop anchor. -/
def Boat.stop (b : Boat) : Boat :=
  if b.base.is_moving then
    { b with base := { b.base with current_speed := 0, is_moving := false },
             anchor_down := true }
  else
    b

/-- `Bicycle` adds `pedaling` and `gear` (lines 219-222). -/
structure Bicycle where
  base : VehicleBase
  pedaling : Bool
  gear : Int
deriving DecidableEq, Repr

/-- `Bicycle.__init__(name, max_speed=40, capacity=2)`: fuel "Human Power",
not pedaling, gear 1. -/
def Bicycle.init (name : String) (max_speed : Int := 40) (capacity : Int := 2) : Bicycle :=
  { base := VehicleBase.init name max_speed "Human Power" capacity,
    pedaling := false, gear := 1 }

/-- `Bicycle.move` (lines 224-234): from stopped, pedal at 15 km/h. -/
def Bicycle.move (b : Bicycle) : Bicycle :=
  if !b.base.is_moving then
    { b with base := { b.base with is_moving := true, current_speed := 15 },
             pedaling := true }
  else
    b

/-- `Bicycle.stop` (lines 236-245): from moving, speed 0, stop pedaling. -/
def Bicycle.stop (b : Bicycle) : Bicycle :=
  if b.base.is_moving then
    { b with base := { b.base with current_speed := 0, is_moving := false },
             pedaling := false }
  else
    b

/-- `Train` adds `cars` and `station` (lines 259-262). -/
structure Train where
  base : VehicleBase
  cars : Int
  station : String
deriving DecidableEq, Repr

/-- `Train.__init__(name, max_speed=300, capacity=500)`: fuel "Electric",
8 cars, at "Central Station". -/
def Train.init (name : String) (max_speed : Int := 300) (capacity : Int := 500) : Train :=
  { base := VehicleBase.init name max_speed "Electric" capacity,
    cars := 8, station := "Central Station" }

/-- `Train.move` (lines 264-275): from stopped, travel at 80 km/h. -/
def Train.move (t : Train) : Train :=
  if !t.base.is_moving then
    { t with base := { t.base with is_moving := true, current_speed := 80 } }
  else
    t

/-- `Train.stop` (lines 277-287): from moving, speed 0 and stop. -/
def Train.stop (t : Train) : Train :=
  if t.base.is_moving then
    { t with base := { t.base with current_speed := 0, is_moving := false } }
  else
    t

/-! ## Electronics hierarchy (`smartphone.py`) -/

/-- Fields set by `Electronics.__init__` (`smartphone.py`, lines 23-42).
`price` is a Python float used only as data; it is modelled as `Rat`. -/
structure Electronics where
  brand : String
  model : String
  price : Rat
  warranty_years : Int
  serial_number : String
  manufacture_date : String
  is_on : Bool
  power_consumption : Int
deriving DecidableEq, Repr

/-- `Electronics.__init__(brand, model, price, warranty_years=1)`: the random
serial and current date are taken as parameters; the class-wide counter
`Electronics.total_devices` is threaded through and incremented by 1. -/
def Electronics.init (brand model : String) (price : Rat) (warranty_years : Int)
    (serial date : String) (total_devices : Nat) : Electronics × Nat :=
  ({ brand := brand, model := model, price := price,
     warranty_years := warranty_years, serial_number := serial,
     manufacture_date := date, is_on := false, power_consumption := 0 },
   total_devices + 1)

/-- A contact record `{"name": name, "phone": phone_number}`. -/
structure Contact where
  name : String
  phone : String
deriving DecidableEq, Repr

/-- Python's `str.lower()` restricted to the characters the scripts use. -/
def pyLower (s : String) : String := s.map Char.toLower

/-- A `Smartphone` is its `Electronics` part plus the fields of
`Smartphone.__init__` (lines 101-118). -/
structure Smartphone where
  elec : Electronics
  os : String
  storage_gb : Int
  camera_mp : Int
  battery_mah : Int
  contacts : List Contact
  apps_installed : List String
  battery_level : Int
  screen_locked : Bool
deriving DecidableEq, Repr

/-- `Smartphone.__init__(brand, model, price, os, storage_gb, camera_mp,
battery_mah, warranty_years=2)`: delegates to `Electronics.init` (which bumps
the counter), then no contacts, three preinstalled apps, battery 100, screen
locked. -/
def Smartphone.init (brand model : String) (price : Rat) (os : String)
    (storage_gb camera_mp battery_mah : Int) (warranty_years : Int)
    (serial date : String) (total_devices : Nat) : Smartphone × Nat :=
  let ed := Electronics.init brand model price warranty_years serial date total_devices
  ({ elec := ed.1, os := os, storage_gb := storage_gb, camera_mp := camera_mp,
     battery_mah := battery_mah, contacts := [],
     apps_installed := ["Phone", "Messages", "Settings"],
     battery_level := 100, screen_locked := true },
   ed.2)

/-- `Smartphone.unlock_screen(passcode="1234")` (lines 125-137): when locked,
unlock and return True exactly for the passcode "1234"; when already unlocked,
return True without change. -/
def Smartphone.unlock_screen (s : Smartphone) (passcode : String := "1234") :
    Smartphone × Bool :=
  if s.screen_locked then
    if passcode = "1234" then ({ s with screen_locked := false }, true)
    else (s, false)
  else
    (s, true)

/-- `Smartphone.lock_screen` (lines 139-145). -/
def Smartphone.lock_screen (s : Smartphone) : Smartphone :=
  if !s.screen_locked then { s with screen_locked := true } else s

/-- `Smartphone.add_contact(name, phone_number)` (lines 147-156): appends when
unlocked, otherwise returns False without change. -/
def Smartphone.add_contact (s : Smartphone) (name phone_number : String) :
    Smartphone × Bool :=
  if !s.screen_locked then
    ({ s with contacts := s.contacts ++ [{ name := name, phone := phone_number }] }, true)
  else
    (s, false)

/-- One tag per branch of `Smartphone.install_app`: the success branch, and
the three printed failure conditions (locked screen, app already installed,
not enough storage). `ok` corresponds to `return True`, the rest to
`return False`. -/
inductive InstallResult where
  | ok
  | locked
  | alreadyInstalled
  | noStorage
deriving DecidableEq, Repr

/-- The Python boolean returned for each `install_app` branch. -/
def InstallResult.toBool : InstallResult → Bool
  | .ok => true
  | _ => false

/-- `Smartphone.install_app(app_name)` (lines 158-176): when unlocked and the
app is new, it is installed only while `len(apps) < storage_gb // 4`, costing
2 battery (with no battery check). -/
def Smartphone.install_app (s : Smartphone) (app_name : String) :
    Smartphone × InstallResult :=
  if !s.screen_locked then
    if app_name ∉ s.apps_installed then
      if (s.apps_installed.length : Int) < s.storage_gb / 4 then
        ({ s with apps_installed := s.apps_installed ++ [app_name],
                  battery_level := s.battery_level - 2 }, .ok)
      else
        (s, .noStorage)
    else
      (s, .alreadyInstalled)
  else
    (s, .locked)

/-- `Smartphone.take_photo` (lines 178-191): when unlocked and battery > 5,
costs 3 battery and returns a filename starting with "HD" when
`camera_mp >= 12`, else "Standard"; otherwise returns None. The
`datetime.now()` part of the filename is the `timestamp` parameter. -/
def Smartphone.take_photo (s : Smartphone) (timestamp : String) :
    Smartphone × Option String :=
  if !s.screen_locked then
    if s.battery_level > 5 then
      let photo_quality := if s.camera_mp ≥ 12 then "HD" else "Standard"
      ({ s with battery_level := s.battery_level - 3 },
       some (photo_quality ++ "_photo_" ++ timestamp ++ ".jpg"))
    else
      (s, none)
  else
    (s, none)

/-- `Smartphone.make_call(contact_name)` (lines 193-210): when unlocked, find
the contact case-insensitively; with battery > 10 the call costs 5 battery. -/
def Smartphone.make_call (s : Smartphone) (contact_name : String) :
    Smartphone × Bool :=
  if !s.screen_locked then
    match s.contacts.find? (fun c => pyLower c.name = pyLower contact_name) with
    | some _ =>
      if s.battery_level > 10 then
        ({ s with battery_level := s.battery_level - 5 }, true)
      else
        (s, false)
    | none => (s, false)
  else
    (s, false)

/-- `Smartphone.check_battery` (lines 212-216): returns the level, no change. -/
def Smartphone.check_battery (s : Smartphone) : Int := s.battery_level

/-- `Smartphone.charge_battery(amount=50)` (lines 218-223): clamp at 100. -/
def Smartphone.charge_battery (s : Smartphone) (amount : Int := 50) : Smartphone :=
  { s with battery_level := min 100 (s.battery_level + amount) }

/-- `Smartphone.get_contacts` (lines 225-231): a copy when unlocked, else `[]`. -/
def Smartphone.get_contacts (s : Smartphone) : List Contact :=
  if !s.screen_locked then s.contacts else []

/-- `Smartphone.get_installed_apps` (lines 233-239). -/
def Smartphone.get_installed_apps (s : Smartphone) : List String :=
  if !s.screen_locked then s.apps_installed else []

/-- A `Laptop` is its `Electronics` part plus the fields of
`Laptop.__init__` (lines 264-271). -/
structure Laptop where
  elec : Electronics
  os : String
  ram_gb : Int
  storage_gb : Int
  screen_size : String
  programs_running : List String
  cpu_usage : Int
deriving DecidableEq, Repr

/-- `Laptop.__init__(brand, model, price, os, ram_gb, storage_gb, screen_size,
warranty_years=3)`: delegates to `Electronics.init` (which bumps the counter). -/
def Laptop.init (brand model : String) (price : Rat) (os : String)
    (ram_gb storage_gb : Int) (screen_size : String) (warranty_years : Int)
    (serial date : String) (total_devices : Nat) : Laptop × Nat :=
  let ed := Electronics.init brand model price warranty_years serial date total_devices
  ({ elec := ed.1, os := os, ram_gb := ram_gb, storage_gb := storage_gb,
     screen_size := screen_size, programs_running := [], cpu_usage := 0 },
   ed.2)

/-! ## Operation sequences over a smartphone -/

/-- One public smartphone operation, with the driver-supplied arguments; the
charge amount comes from `isdigit` input or the default 50, hence a `Nat`. -/
inductive SOp where
  | unlock (passcode : String)
  | lock
  | addContact (name phone_number : String)
  | installApp (app_name : String)
  | takePhoto (timestamp : String)
  | makeCall (contact_name : String)
  | chargeBattery (amount : Nat)
  | checkBattery
deriving DecidableEq, Repr

/-- Whether an operation is an `install_app` call. -/
def SOp.isInstall : SOp → Bool
  | .installApp _ => true
  | _ => false

/-- Run one operation, discarding the returned value. -/
def runOp (s : Smartphone) : SOp → Smartphone
  | .unlock p => (s.unlock_screen p).1
  | .lock => s.lock_screen
  | .addContact n p => (s.add_contact n p).1
  | .installApp a => (s.install_app a).1
  | .takePhoto ts => (s.take_photo ts).1
  | .makeCall n => (s.make_call n).1
  | .chargeBattery n => s.charge_battery (n : Int)
  | .checkBattery => s

/-- Run a sequence of public operations from left to right. -/
def runOps (s : Smartphone) (ops : List SOp) : Smartphone := ops.foldl runOp s

/-! ## Construction events and the `total_devices` counter -/

/-- One construction event: a base `Electronics`, a `Smartphone` or a `Laptop`
is built (every argument explicit, random/date inputs included). -/
inductive DevCtor where
  | elec (brand model : String) (price : Rat) (warranty : Int) (serial date : String)
  | phone (brand model : String) (price : Rat) (os : String)
      (storage_gb camera_mp battery_mah : Int) (warranty : Int) (serial date : String)
  | laptop (brand model : String) (price : Rat) (os : String)
      (ram_gb storage_gb : Int) (screen_size : String) (warranty : Int)
      (serial date : String)
deriving Repr

/-- The value of `Electronics.total_devices` after one construction event. -/
def runCtor (total_devices : Nat) : DevCtor → Nat
  | .elec b m p w sn d => (Electronics.init b m p w sn d total_devices).2
  | .phone b m p os st ca ba w sn d =>
      (Smartphone.init b m p os st ca ba w sn d total_devices).2
  | .laptop b m p os r st sc w sn d =>
      (Laptop.init b m p os r st sc w sn d total_devices).2

/-- The value of `Electronics.total_devices` after a sequence of
construction events. -/
def runCtors (total_devices : Nat) (evs : List DevCtor) : Nat :=
  evs.foldl runCtor total_devices


theorem runOp_battery_le (s : Smartphone) (op : SOp)
    (h : s.battery_level ≤ 100) : (runOp s op).battery_level ≤ 100 := by
  cases op <;>
    simp only [runOp, Smartphone.unlock_screen, Smartphone.lock_screen,
      Smartphone.add_contact, Smartphone.install_app, Smartphone.take_photo,
      Smartphone.make_call, Smartphone.charge_battery] <;>
  repeat' split
  all_goals try simp_all
  all_goals omega

theorem runOp_battery_nonneg (s : Smartphone) (op : SOp)
    (hni : op.isInstall = false) (h : 0 ≤ s.battery_level) :
    0 ≤ (runOp s op).battery_level := by
  cases op <;> simp only [SOp.isInstall] at hni <;>
    simp only [runOp, Smartphone.unlock_screen, Smartphone.lock_screen,
      Smartphone.add_contact, Smartphone.install_app, Smartphone.take_photo,
      Smartphone.make_call, Smartphone.charge_battery] <;>
  repeat' split
  all_goals try simp_all
  all_goals omega

theorem runOps_battery_le (s : Smartphone) (ops : List SOp)
    (h : s.battery_level ≤ 100) : (runOps s ops).battery_level ≤ 100 := by
  induction ops generalizing s with
  | nil => simpa [runOps]
  | cons op rest ih =>
      simpa [runOps] using ih (runOp s op) (runOp_battery_le s op h)

theorem runOps_battery_nonneg (s : Smartphone) (ops : List SOp)
    (hni : ∀ op ∈ ops, op.isInstall = false) (h : 0 ≤ s.battery_level) :
    0 ≤ (runOps s ops).battery_level := by
  induction ops generalizing s with
  | nil => simpa [runOps]
  | cons op rest ih =>
      have h1 := runOp_battery_nonneg s op (hni op (by simp)) h
      simpa [runOps] using ih (runOp s op) (fun o ho => hni o (by simp [ho])) h1

/-- C1 (amended): starting from a freshly constructed smartphone
(battery 100), every sequence of public operations keeps `battery_level ≤ 100`;
and every sequence containing no `install_app` call also keeps
`0 ≤ battery_level`. The original claim fails because `install_app` subtracts
2 battery with no battery check, so install-heavy sequences can drive the
level negative. -/
theorem smartphone_battery_bounds (brand model : String) (price : Rat)
    (os : String) (storage_gb camera_mp battery_mah warranty_years : Int)
    (serial date : String) (total_devices : Nat) (ops : List SOp) :
    (runOps (Smartphone.init brand model price os storage_gb camera_mp
        battery_mah warranty_years serial date total_devices).1 ops).battery_level ≤ 100 ∧
    ((∀ op ∈ ops, op.isInstall = false) →
      0 ≤ (runOps (Smartphone.init brand model price os storage_gb camera_mp
        battery_mah warranty_years serial date total_devices).1 ops).battery_level) := by
  constructor
  · exact runOps_battery_le _ ops (by simp [Smartphone.init])
  · intro hni
    exact runOps_battery_nonneg _ ops hni (by simp [Smartphone.init])

theorem smartphone_battery_bounds_witness :
    (runOps (Smartphone.init "A" "B" 1 "OS" 64 12 4000 2 "SN" "D" 0).1
      [SOp.unlock "1234", SOp.takePhoto "t", SOp.chargeBattery 50]).battery_level ≤ 100 ∧
    0 ≤ (runOps (Smartphone.init "A" "B" 1 "OS" 64 12 4000 2 "SN" "D" 0).1
      [SOp.unlock "1234", SOp.takePhoto "t", SOp.chargeBattery 50]).battery_level := by
  have h := smartphone_battery_bounds "A" "B" 1 "OS" 64 12 4000 2 "SN" "D" 0
    [SOp.unlock "1234", SOp.takePhoto "t", SOp.chargeBattery 50]
  exact ⟨h.1, h.2 (by decide)⟩

set_option maxRecDepth 40000 in
/-- C1 (counterexample): on a fresh smartphone with 400 GB storage, unlocking
and then installing 51 distinct apps drives `battery_level` to -2, below 0,
refuting the claim that no operation sequence drives it below 0. -/
theorem install_app_drains_battery_below_zero :
    (runOps (Smartphone.init "TechPro" "X15" 899 "Android" 400 48 4500 2
        "SN123456" "2026-10-12" 0).1
      (SOp.unlock "1234" ::
        (List.range 51).map (fun i => SOp.installApp (toString i)))).battery_level < 0 := by
  decide


/-- C2 (amended): for every vehicle variant whose `max_speed` is at least the
variant's fixed starting speed (Car 30, Plane 250, Boat 25, Bicycle 15,
Train 80), the invariant `current_speed ≤ max_speed ∧ (current_speed = 0 when
not moving)` holds after construction and is preserved by `move`, `stop` and
the shared `accelerate`. The original claim fails for constructor arguments
with a smaller `max_speed`, since `move` sets the fixed starting speed without
consulting `max_speed`. -/
theorem vehicle_invariant_preserved :
    (∀ (name : String) (ms cap : Int), (30 : Int) ≤ ms →
      VehicleInv (Car.init name ms cap).base) ∧
    (∀ c : Car, (30 : Int) ≤ c.base.max_speed → VehicleInv c.base →
      VehicleInv c.move.base ∧ VehicleInv c.stop.base) ∧
    (∀ (name : String) (ms cap : Int), (250 : Int) ≤ ms →
      VehicleInv (Plane.init name ms cap).base) ∧
    (∀ p : Plane, (250 : Int) ≤ p.base.max_speed → VehicleInv p.base →
      VehicleInv p.move.base ∧ VehicleInv p.stop.base) ∧
    (∀ (name : String) (ms cap : Int), (25 : Int) ≤ ms →
      VehicleInv (Boat.init name ms cap).base) ∧
    (∀ b : Boat, (25 : Int) ≤ b.base.max_speed → VehicleInv b.base →
      VehicleInv b.move.base ∧ VehicleInv b.stop.base) ∧
    (∀ (name : String) (ms cap : Int), (15 : Int) ≤ ms →
      VehicleInv (Bicycle.init name ms cap).base) ∧
    (∀ b : Bicycle, (15 : Int) ≤ b.base.max_speed → VehicleInv b.base →
      VehicleInv b.move.base ∧ VehicleInv b.stop.base) ∧
    (∀ (name : String) (ms cap : Int), (80 : Int) ≤ ms →
      VehicleInv (Train.init name ms cap).base) ∧
    (∀ t : Train, (80 : Int) ≤ t.base.max_speed → VehicleInv t.base →
      VehicleInv t.move.base ∧ VehicleInv t.stop.base) ∧
    (∀ (v : VehicleBase) (d : Int), VehicleInv v → VehicleInv (v.accelerate d)) := by
  refine ⟨?_, ?_, ?_, ?_, ?_, ?_, ?_, ?_, ?_, ?_, ?_⟩
  · intro name ms cap h
    simp only [Car.init, VehicleBase.init, VehicleInv]
    exact ⟨by omega, fun hh => trivial⟩
  · intro c hms ⟨h1, h2⟩
    constructor
    · unfold Car.move
      split <;> simp_all [VehicleInv]
    · unfold Car.stop
      split <;> simp_all [VehicleInv] <;> omega
  · intro name ms cap h
    simp only [Plane.init, VehicleBase.init, VehicleInv]
    exact ⟨by omega, fun hh => trivial⟩
  · intro p hms ⟨h1, h2⟩
    constructor
    · unfold Plane.move
      split <;> simp_all [VehicleInv]
    · unfold Plane.stop
      split <;> simp_all [VehicleInv] <;> omega
  · intro name ms cap h
    simp only [Boat.init, VehicleBase.init, VehicleInv]
    exact ⟨by omega, fun hh => trivial⟩
  · intro b hms ⟨h1, h2⟩
    constructor
    · unfold Boat.move
      split <;> simp_all [VehicleInv]
    · unfold Boat.stop
      split <;> simp_all [VehicleInv] <;> omega
  · intro name ms cap h
    simp only [Bicycle.init, VehicleBase.init, VehicleInv]
    exact ⟨by omega, fun hh => trivial⟩
  · intro b hms ⟨h1, h2⟩
    constructor
    · unfold Bicycle.move
      split <;> simp_all [VehicleInv]
    · unfold Bicycle.stop
      split <;> simp_all [VehicleInv] <;> omega
  · intro name ms cap h
    simp only [Train.init, VehicleBase.init, VehicleInv]
    exact ⟨by omega, fun hh => trivial⟩
  · intro t hms ⟨h1, h2⟩
    constructor
    · unfold Train.move
      split <;> simp_all [VehicleInv]
    · unfold Train.stop
      split <;> simp_all [VehicleInv] <;> omega
  · intro v d ⟨h1, h2⟩
    unfold VehicleBase.accelerate
    split
    · constructor
      · show min v.max_speed (v.current_speed + d) ≤ v.max_speed
        exact min_le_left _ _
      · intro hf
        simp_all
    · exact ⟨h1, h2⟩

theorem vehicle_invariant_preserved_witness :
    VehicleInv (Car.init "Sedan" 180 5).base ∧
    VehicleInv ((Car.init "Sedan" 180 5).move).base := by
  have h := vehicle_invariant_preserved
  have hc := h.1 "Sedan" 180 5 (by decide)
  exact ⟨hc, (h.2.1 (Car.init "Sedan" 180 5) (by decide) hc).1⟩

/-- C2 (counterexample): a Car constructed with `max_speed = 10` violates the
invariant after `move()`, which sets `current_speed = 30 > 10`. -/
theorem car_move_breaks_invariant :
    ¬ VehicleInv ((Car.init "Sluggish" 10 5).move).base := by decide


/-- C3 (amended): on a smartphone whose screen is locked, `unlock_screen p`
succeeds (returns True and leaves the screen unlocked) exactly when
`p = "1234"`; on a smartphone whose screen is already unlocked, it returns
True and changes nothing, for every passcode. The original "in every reachable
state ... iff" fails because of the already-unlocked branch. -/
theorem unlock_screen_iff (s : Smartphone) (p : String) :
    (s.screen_locked = true →
      (((s.unlock_screen p).2 = true ∧ (s.unlock_screen p).1.screen_locked = false) ↔
        p = "1234")) ∧
    (s.screen_locked = false → s.unlock_screen p = (s, true)) := by
  constructor
  · intro h
    unfold Smartphone.unlock_screen
    by_cases hp : p = "1234" <;> simp [h, hp]
  · intro h
    unfold Smartphone.unlock_screen
    simp [h]

theorem unlock_screen_iff_witness :
    ((((Smartphone.init "A" "B" 1 "OS" 64 12 4000 2 "SN" "D" 0).1.unlock_screen "1234").2 = true ∧
      ((Smartphone.init "A" "B" 1 "OS" 64 12 4000 2 "SN" "D" 0).1.unlock_screen "1234").1.screen_locked = false) ↔
      "1234" = "1234") :=
  (unlock_screen_iff (Smartphone.init "A" "B" 1 "OS" 64 12 4000 2 "SN" "D" 0).1 "1234").1 rfl

/-- C3 (counterexample): unlock a fresh phone with the correct passcode (a
reachable state), then call `unlock_screen "0000"`: it returns True and the
screen stays unlocked although "0000" is not the fixed passcode. -/
theorem unlock_screen_succeeds_on_wrong_passcode :
    ((((Smartphone.init "A" "B" 1 "OS" 64 12 4000 2 "SN" "D" 0).1.unlock_screen
        "1234").1.unlock_screen "0000").2 = true ∧
     (((Smartphone.init "A" "B" 1 "OS" 64 12 4000 2 "SN" "D" 0).1.unlock_screen
        "1234").1.unlock_screen "0000").1.screen_locked = false ∧
     "0000" ≠ "1234") := by decide

/-- C4: on a smartphone whose screen is locked, each sensitive operation
returns its falsy/empty value (False, the locked tag whose Python boolean is
False, None, or []) and leaves the state exactly as it was. -/
theorem locked_operations_are_noops (s : Smartphone)
    (h : s.screen_locked = true)
    (name phone_number app_name timestamp contact_name : String) :
    s.add_contact name phone_number = (s, false) ∧
    s.install_app app_name = (s, InstallResult.locked) ∧
    InstallResult.locked.toBool = false ∧
    s.take_photo timestamp = (s, none) ∧
    s.make_call contact_name = (s, false) ∧
    s.get_contacts = [] ∧
    s.get_installed_apps = [] := by
  unfold Smartphone.add_contact Smartphone.install_app Smartphone.take_photo
    Smartphone.make_call Smartphone.get_contacts Smartphone.get_installed_apps
  simp [h, InstallResult.toBool]

theorem locked_operations_are_noops_witness :
    (Smartphone.init "A" "B" 1 "OS" 64 12 4000 2 "SN" "D" 0).1.add_contact "Alice" "+1"
      = ((Smartphone.init "A" "B" 1 "OS" 64 12 4000 2 "SN" "D" 0).1, false) ∧
    (Smartphone.init "A" "B" 1 "OS" 64 12 4000 2 "SN" "D" 0).1.install_app "WhatsApp"
      = ((Smartphone.init "A" "B" 1 "OS" 64 12 4000 2 "SN" "D" 0).1, InstallResult.locked) ∧
    InstallResult.locked.toBool = false ∧
    (Smartphone.init "A" "B" 1 "OS" 64 12 4000 2 "SN" "D" 0).1.take_photo "t"
      = ((Smartphone.init "A" "B" 1 "OS" 64 12 4000 2 "SN" "D" 0).1, none) ∧
    (Smartphone.init "A" "B" 1 "OS" 64 12 4000 2 "SN" "D" 0).1.make_call "Alice"
      = ((Smartphone.init "A" "B" 1 "OS" 64 12 4000 2 "SN" "D" 0).1, false) ∧
    (Smartphone.init "A" "B" 1 "OS" 64 12 4000 2 "SN" "D" 0).1.get_contacts = [] ∧
    (Smartphone.init "A" "B" 1 "OS" 64 12 4000 2 "SN" "D" 0).1.get_installed_apps = [] :=
  locked_operations_are_noops (Smartphone.init "A" "B" 1 "OS" 64 12 4000 2 "SN" "D" 0).1
    rfl "Alice" "+1" "WhatsApp" "t" "Alice"

/-- C5: from a stopped state, `move()` makes each variant moving at its fixed
starting speed (Car 30, Plane 250, Boat 25, Bicycle 15, Train 80); from a
moving state, `stop()` makes it stopped with speed 0. -/
theorem move_stop_transitions :
    (∀ c : Car,
      (c.base.is_moving = false →
        c.move.base.is_moving = true ∧ c.move.base.current_speed = 30) ∧
      (c.base.is_moving = true →
        c.stop.base.is_moving = false ∧ c.stop.base.current_speed = 0)) ∧
    (∀ p : Plane,
      (p.base.is_moving = false →
        p.move.base.is_moving = true ∧ p.move.base.current_speed = 250) ∧
      (p.base.is_moving = true →
        p.stop.base.is_moving = false ∧ p.stop.base.current_speed = 0)) ∧
    (∀ b : Boat,
      (b.base.is_moving = false →
        b.move.base.is_moving = true ∧ b.move.base.current_speed = 25) ∧
      (b.base.is_moving = true →
        b.stop.base.is_moving = false ∧ b.stop.base.current_speed = 0)) ∧
    (∀ b : Bicycle,
      (b.base.is_moving = false →
        b.move.base.is_moving = true ∧ b.move.base.current_speed = 15) ∧
      (b.base.is_moving = true →
        b.stop.base.is_moving = false ∧ b.stop.base.current_speed = 0)) ∧
    (∀ t : Train,
      (t.base.is_moving = false →
        t.move.base.is_moving = true ∧ t.move.base.current_speed = 80) ∧
      (t.base.is_moving = true →
        t.stop.base.is_moving = false ∧ t.stop.base.current_speed = 0)) := by
  refine ⟨?_, ?_, ?_, ?_, ?_⟩ <;>
    intro v <;>
    constructor <;>
    intro h
  · exact ⟨by simp [Car.move, h], by simp [Car.move, h]⟩
  · exact ⟨by simp [Car.stop, h], by simp [Car.stop, h]⟩
  · exact ⟨by simp [Plane.move, h], by simp [Plane.move, h]⟩
  · exact ⟨by simp [Plane.stop, h], by simp [Plane.stop, h]⟩
  · exact ⟨by simp [Boat.move, h], by simp [Boat.move, h]⟩
  · exact ⟨by simp [Boat.stop, h], by simp [Boat.stop, h]⟩
  · exact ⟨by simp [Bicycle.move, h], by simp [Bicycle.move, h]⟩
  · exact ⟨by simp [Bicycle.stop, h], by simp [Bicycle.stop, h]⟩
  · exact ⟨by simp [Train.move, h], by simp [Train.move, h]⟩
  · exact ⟨by simp [Train.stop, h], by simp [Train.stop, h]⟩

theorem move_stop_transitions_witness :
    ((Train.init "Express" 300 500).move.base.is_moving = true ∧
     (Train.init "Express" 300 500).move.base.current_speed = 80) :=
  (move_stop_transitions.2.2.2.2 (Train.init "Express" 300 500)).1 rfl

/-- C6: the shared `accelerate(d)` is the identity when the vehicle is not
moving; when moving it changes only `current_speed`, to
`min(max_speed, current_speed + d)`. -/
theorem accelerate_only_clamps_speed (v : VehicleBase) (d : Int) :
    (v.is_moving = false → v.accelerate d = v) ∧
    (v.is_moving = true →
      v.accelerate d =
        { v with current_speed := min v.max_speed (v.current_speed + d) }) := by
  unfold VehicleBase.accelerate
  constructor <;> intro h <;> simp [h]

theorem accelerate_only_clamps_speed_witness :
    (VehicleBase.init "Sedan" 180 "Gasoline" 5).accelerate 40 =
      VehicleBase.init "Sedan" 180 "Gasoline" 5 :=
  (accelerate_only_clamps_speed (VehicleBase.init "Sedan" 180 "Gasoline" 5) 40).1 rfl

/-- C7: for every variant, `move()` on a moving vehicle and `stop()` on a
stopped vehicle are no-ops leaving the whole state unchanged, and so the
second of two consecutive `move()` calls changes nothing. -/
theorem redundant_move_stop_noop :
    (∀ c : Car, c.move.move = c.move ∧
      (c.base.is_moving = true → c.move = c) ∧
      (c.base.is_moving = false → c.stop = c)) ∧
    (∀ p : Plane, p.move.move = p.move ∧
      (p.base.is_moving = true → p.move = p) ∧
      (p.base.is_moving = false → p.stop = p)) ∧
    (∀ b : Boat, b.move.move = b.move ∧
      (b.base.is_moving = true → b.move = b) ∧
      (b.base.is_moving = false → b.stop = b)) ∧
    (∀ b : Bicycle, b.move.move = b.move ∧
      (b.base.is_moving = true → b.move = b) ∧
      (b.base.is_moving = false → b.stop = b)) ∧
    (∀ t : Train, t.move.move = t.move ∧
      (t.base.is_moving = true → t.move = t) ∧
      (t.base.is_moving = false → t.stop = t)) := by
  refine ⟨?_, ?_, ?_, ?_, ?_⟩ <;> intro v
  · refine ⟨?_, fun h => by simp [Car.move, h], fun h => by simp [Car.stop, h]⟩
    by_cases h : v.base.is_moving <;> simp [Car.move, h]
  · refine ⟨?_, fun h => by simp [Plane.move, h], fun h => by simp [Plane.stop, h]⟩
    by_cases h : v.base.is_moving <;> simp [Plane.move, h]
  · refine ⟨?_, fun h => by simp [Boat.move, h], fun h => by simp [Boat.stop, h]⟩
    by_cases h : v.base.is_moving <;> simp [Boat.move, h]
  · refine ⟨?_, fun h => by simp [Bicycle.move, h], fun h => by simp [Bicycle.move, Bicycle.stop, h]⟩
    by_cases h : v.base.is_moving <;> simp [Bicycle.move, h]
  · refine ⟨?_, fun h => by simp [Train.move, h], fun h => by simp [Train.stop, h]⟩
    by_cases h : v.base.is_moving <;> simp [Train.move, h]

theorem redundant_move_stop_noop_witness :
    (Car.init "Sedan" 180 5).stop = Car.init "Sedan" 180 5 :=
  (redundant_move_stop_noop.1 (Car.init "Sedan" 180 5)).2.2 rfl

/-- C8: every constructor (base Electronics, Smartphone via `super()`, Laptop
via `super()`) increments `Electronics.total_devices` by exactly 1 — no code
outside `Electronics.__init__` writes the counter — and so over any sequence
of construction events the counter grows by the number of events and never
decreases. -/
theorem total_devices_increments :
    (∀ (b m : String) (pr : Rat) (w : Int) (sn dt : String) (ctr : Nat),
      (Electronics.init b m pr w sn dt ctr).2 = ctr + 1) ∧
    (∀ (b m : String) (pr : Rat) (os : String) (st ca ba w : Int)
        (sn dt : String) (ctr : Nat),
      (Smartphone.init b m pr os st ca ba w sn dt ctr).2 = ctr + 1) ∧
    (∀ (b m : String) (pr : Rat) (os : String) (r st : Int) (sc : String)
        (w : Int) (sn dt : String) (ctr : Nat),
      (Laptop.init b m pr os r st sc w sn dt ctr).2 = ctr + 1) ∧
    (∀ (ctr : Nat) (evs : List DevCtor), runCtors ctr evs = ctr + evs.length) ∧
    (∀ (ctr : Nat) (evs : List DevCtor), ctr ≤ runCtors ctr evs) := by
  have hstep : ∀ (ctr : Nat) (ev : DevCtor), runCtor ctr ev = ctr + 1 := by
    intro ctr ev
    cases ev <;> rfl
  have hfold : ∀ (ctr : Nat) (evs : List DevCtor), runCtors ctr evs = ctr + evs.length := by
    intro ctr evs
    induction evs generalizing ctr with
    | nil => simp [runCtors]
    | cons ev rest ih =>
        have : runCtors ctr (ev :: rest) = runCtors (runCtor ctr ev) rest := rfl
        rw [this, ih, hstep]
        simp [List.length_cons]
        omega
  refine ⟨fun _ _ _ _ _ _ _ => rfl, fun _ _ _ _ _ _ _ _ _ _ _ => rfl,
    fun _ _ _ _ _ _ _ _ _ _ _ => rfl, hfold, ?_⟩
  intro ctr evs
  rw [hfold]
  omega

/-- C9: on an unlocked smartphone with battery above 5, `take_photo` debits
exactly 3 battery and returns the filename starting with "HD" when
`camera_mp ≥ 12` and "Standard" otherwise; with battery at most 5 it returns
None and changes nothing. -/
theorem take_photo_quality_and_battery (s : Smartphone) (timestamp : String)
    (h : s.screen_locked = false) :
    (s.battery_level > 5 →
      s.take_photo timestamp =
        ({ s with battery_level := s.battery_level - 3 },
         some ((if s.camera_mp ≥ 12 then "HD" else "Standard") ++
           "_photo_" ++ timestamp ++ ".jpg"))) ∧
    (s.battery_level ≤ 5 → s.take_photo timestamp = (s, none)) := by
  unfold Smartphone.take_photo
  constructor <;> intro hb
  · simp [h, hb]
  · have : ¬ s.battery_level > 5 := by omega
    simp [h, this]

theorem take_photo_quality_and_battery_witness :
    (((Smartphone.init "TechPro" "X15" 899 "Android" 256 48 4500 2 "SN" "D" 0).1.unlock_screen
        "1234").1.take_photo "20261012" =
      ({ ((Smartphone.init "TechPro" "X15" 899 "Android" 256 48 4500 2 "SN" "D" 0).1.unlock_screen
          "1234").1 with
         battery_level := ((Smartphone.init "TechPro" "X15" 899 "Android" 256 48 4500 2 "SN" "D"
           0).1.unlock_screen "1234").1.battery_level - 3 },
       some ((if ((Smartphone.init "TechPro" "X15" 899 "Android" 256 48 4500 2 "SN" "D"
           0).1.unlock_screen "1234").1.camera_mp ≥ 12 then "HD" else "Standard") ++
         "_photo_" ++ "20261012" ++ ".jpg"))) :=
  (take_photo_quality_and_battery
    ((Smartphone.init "TechPro" "X15" 899 "Android" 256 48 4500 2 "SN" "D" 0).1.unlock_screen
      "1234").1 "20261012" rfl).1 (by decide)

/-- C10 (amended): every freshly constructed smartphone starts with exactly the
three preinstalled apps "Phone", "Messages", "Settings"; on an unlocked fresh
smartphone with `storage_gb ≤ 15` (so `storage_gb // 4 ≤ 3`), `install_app`
fails without mutation for every app name — with the insufficient-storage
condition when the name is not preinstalled, and with the already-installed
condition (not insufficient storage) when it is one of the three. -/
theorem fresh_phone_small_storage_install :
    (∀ (b m : String) (pr : Rat) (os : String) (st ca ba w : Int)
        (sn dt : String) (ctr : Nat),
      (Smartphone.init b m pr os st ca ba w sn dt ctr).1.apps_installed =
        ["Phone", "Messages", "Settings"]) ∧
    (∀ (b m : String) (pr : Rat) (os : String) (st ca ba w : Int)
        (sn dt : String) (ctr : Nat), st ≤ 15 → ∀ app_name : String,
      (((Smartphone.init b m pr os st ca ba w sn dt ctr).1.unlock_screen
          "1234").1.install_app app_name).1 =
        ((Smartphone.init b m pr os st ca ba w sn dt ctr).1.unlock_screen "1234").1 ∧
      (((Smartphone.init b m pr os st ca ba w sn dt ctr).1.unlock_screen
          "1234").1.install_app app_name).2.toBool = false ∧
      (app_name ∉ (["Phone", "Messages", "Settings"] : List String) →
        (((Smartphone.init b m pr os st ca ba w sn dt ctr).1.unlock_screen
            "1234").1.install_app app_name).2 = InstallResult.noStorage) ∧
      (app_name ∈ (["Phone", "Messages", "Settings"] : List String) →
        (((Smartphone.init b m pr os st ca ba w sn dt ctr).1.unlock_screen
            "1234").1.install_app app_name).2 = InstallResult.alreadyInstalled)) := by
  constructor
  · intro b m pr os st ca ba w sn dt ctr
    rfl
  · intro b m pr os st ca ba w sn dt ctr hst app_name
    have hdiv : st / 4 ≤ 3 := by omega
    by_cases happ : app_name ∈ (["Phone", "Messages", "Settings"] : List String)
    · refine ⟨?_, ?_, fun hn => absurd happ hn, fun _ => ?_⟩ <;>
        simp [Smartphone.init, Electronics.init, Smartphone.unlock_screen,
          Smartphone.install_app, happ, InstallResult.toBool]
    · have hlen : ¬ ((3 : Int) < st / 4) := by omega
      refine ⟨?_, ?_, fun _ => ?_, fun hm => absurd hm happ⟩ <;>
        simp [Smartphone.init, Electronics.init, Smartphone.unlock_screen,
          Smartphone.install_app, happ, hlen, InstallResult.toBool]

theorem fresh_phone_small_storage_install_witness :
    ((((Smartphone.init "B" "M" 100 "OS" 15 8 3000 2 "SN1" "D" 0).1.unlock_screen
        "1234").1.install_app "WhatsApp").2 = InstallResult.noStorage ∧
     (((Smartphone.init "B" "M" 100 "OS" 15 8 3000 2 "SN1" "D" 0).1.unlock_screen
        "1234").1.install_app "WhatsApp").1 =
       ((Smartphone.init "B" "M" 100 "OS" 15 8 3000 2 "SN1" "D" 0).1.unlock_screen
        "1234").1) := by
  have h := (fresh_phone_small_storage_install.2 "B" "M" 100 "OS" 15 8 3000 2 "SN1" "D" 0
    (by decide) "WhatsApp")
  exact ⟨h.2.2.1 (by decide), h.1⟩

/-- C10 (counterexample): on an unlocked fresh smartphone with 15 GB storage,
`install_app "Phone"` reports the already-installed condition, not the
insufficient-storage condition, so the claim's "for every app name" fails. -/
theorem install_preinstalled_app_not_storage_failure :
    ((((Smartphone.init "B" "M" 100 "OS" 15 8 3000 2 "SN1" "D" 0).1.unlock_screen
        "1234").1.install_app "Phone").2 = InstallResult.alreadyInstalled ∧
     InstallResult.alreadyInstalled ≠ InstallResult.noStorage) := by decide
